import Mathlib

/-!
Shallow embedding of the retrieval-and-response-selection engine of
`chatbot.py` (financial-literacy chatbot), together with proofs checking the
specification's claims against it.

Modelling conventions:
* Python `str` is modelled as Lean `String` (a structure holding `List Char`);
  `str.lower()` / `str.split()` / `str.strip()` / `in` (substring) / `str.title()`
  are modelled character-faithfully for the ASCII and Devanagari text the
  program manipulates (`pyLower`, `pySplit`, `pyStripWs`, `strContains`,
  `pyTitle`).
* Python floats only ever hold sums of the literal bonuses 1.5 / 1.0 / 0.5 /
  0.4; every comparison the code performs on them coincides with exact
  rational arithmetic, and every value is a multiple of 0.1, so scores are
  modelled as natural numbers in tenths (1.5 becomes 15, the 0.5 threshold
  becomes 5, and so on).
* `random.choice` is modelled as indexing by a seed modulo the list length,
  `random.sample` as repeated seeded pick-and-remove; a `Seeds` record carries
  one seed per random draw site.  Every list position is reachable for some
  seed, which is how "uniformly at random" statements are read.
* The Gemini network call is the one external effect; it is modelled by a
  `GeminiResult` value injected into the dispatcher (success text, `APIError`,
  or other exception), mirroring the `try/except` in
  `call_gemini_api_fallback`.
* The global mutable list `SEARCHABLE_DOCUMENTS` becomes an explicit
  `List Doc` argument; a state-passing variant (`..._state` functions,
  returning the store alongside the result) is used for the frame-effect
  claim.
-/

/-- Substring test on `List Char`: `needle` occurs contiguously in `hay`
(Python `needle in hay`). -/
def subListAux (needle : List Char) : List Char → Bool
  | [] => needle.isEmpty
  | c :: t => needle.isPrefixOf (c :: t) || subListAux needle t

/-- Python `needle in hay` for strings (contiguous substring test). -/
def strContains (hay needle : String) : Bool :=
  subListAux needle.data hay.data

/-- Python `s.startswith(p)`. -/
def pyStartsWith (s p : String) : Bool :=
  p.data.isPrefixOf s.data

/-- Python `s.lower()`: character-wise lowercasing. -/
def pyLower (s : String) : String :=
  String.mk (s.data.map Char.toLower)

/-- Python `s.title()`: a cased character following a non-cased one is
uppercased, any other cased character is lowercased. -/
def titleAux : Bool → List Char → List Char
  | _, [] => []
  | prevAlpha, c :: t =>
    if c.isAlpha then (if prevAlpha then c.toLower else c.toUpper) :: titleAux true t
    else c :: titleAux false t

/-- Python `s.title()` on strings. -/
def pyTitle (s : String) : String :=
  String.mk (titleAux false s.data)

/-- Accumulating worker for whitespace tokenisation (Python `s.split()`):
`cur` holds the current in-progress token, reversed. -/
def splitWsAux : List Char → List Char → List (List Char)
  | cur, [] => if cur.isEmpty then [] else [cur.reverse]
  | cur, c :: rest =>
    if c.isWhitespace then
      (if cur.isEmpty then splitWsAux [] rest else cur.reverse :: splitWsAux [] rest)
    else splitWsAux (c :: cur) rest

/-- Python `s.split()`: whitespace-separated tokens, empty tokens dropped. -/
def pySplit (s : String) : List String :=
  (splitWsAux [] s.data).map String.mk

/-- Python `s.strip()` with no argument: drop whitespace from both ends. -/
def pyStripWs (s : String) : String :=
  String.mk (((s.data.dropWhile Char.isWhitespace).reverse.dropWhile Char.isWhitespace).reverse)

/-- Python `s.strip(chars)`: drop characters of `cs` from both ends. -/
def pyStripSet (cs : List Char) (s : String) : String :=
  String.mk (((s.data.dropWhile (cs.contains ·)).reverse.dropWhile (cs.contains ·)).reverse)

/-- Python `s.find(needle)` worker: index of first occurrence counted from
`i`, `-1` if absent. -/
def pyFindAux (needle : List Char) : List Char → Nat → Int
  | [], i => if needle.isEmpty then (i : Int) else -1
  | c :: t, i => if needle.isPrefixOf (c :: t) then (i : Int) else pyFindAux needle t (i + 1)

/-- Python `hay.find(needle)`. -/
def pyFind (hay needle : String) : Int :=
  pyFindAux needle.data hay.data 0

/-- Python `s[k:]` for a non-negative index `k`. -/
def pySliceFrom (s : String) (k : Int) : String :=
  String.mk (s.data.drop k.toNat)

/-- Python `w.isdigit()` for ASCII text: non-empty and all digits. -/
def pyIsDigit (w : String) : Bool :=
  !w.data.isEmpty && w.data.all Char.isDigit

/-- Python `int(w)` on an all-digit word. -/
def strToNat (cs : List Char) : Nat :=
  cs.foldl (fun n c => n * 10 + (c.toNat - 48)) 0

/-- A retrievable unit of knowledge, mirroring the dicts appended to
`SEARCHABLE_DOCUMENTS` in `load_and_index_data`.  The synthetic fallback
match built in step 7 of `get_chatbot_response` lacks the `content_hindi` and
`keywords` keys, hence the `Option` / possibly-empty fields. -/
structure Doc where
  doc_type : String
  search_key : String
  content : String
  content_hindi : Option String
  keywords : List String
deriving DecidableEq

/-- Python `doc.get(content_key, doc['content'])` with
`content_key = 'content_hindi' if lang == 'hindi' else 'content'`. -/
def getContent (doc : Doc) (lang : String) : String :=
  if lang == "hindi" then doc.content_hindi.getD doc.content else doc.content

/-- The record returned by `retrieve_related_info`. -/
structure RelInfo where
  search_key : String
  doc_type : String
  content : String
deriving DecidableEq

/-- One seed per random draw site of a single request. -/
structure Seeds where
  tieSeed : Nat
  tipSeed : Nat
  scamSeed : Nat
  sampleSeeds : List Nat
deriving DecidableEq

/-- Outcome of the external Gemini call, as distinguished by the
`try/except` ladder in `call_gemini_api_fallback`. -/
inductive GeminiResult where
  | ok (text : String)
  | apiError (msg : String)
  | unknownError (msg : String)
deriving DecidableEq

/-- The transliterated-Hindi keyword list of `detect_language_from_query`. -/
def hindi_translit_keywords : List String :=
  ["namaste", "mujhe", "hindi", "bachat", "nivesh", "ghotala",
   "kya", "kaise", "aap", "mera", "kon", "nahi", "hai", "batao"]

/-- Character test `char >= 'ऀ' and char <= 'ॿ'` from
`detect_language_from_query`. -/
def isDevanagariChar (c : Char) : Bool :=
  'ऀ' ≤ c && c ≤ 'ॿ'

/-- Embedding of `detect_language_from_query`. -/
def detect_language_from_query (user_question : String) : String :=
  let query := pyLower user_question
  if query.data.any isDevanagariChar then "hindi"
  else if hindi_translit_keywords.any (fun k => (pySplit query).contains k) then "hindi"
  else "english"

/-- The English finance keyword list of `is_query_financial`. -/
def financial_keywords : List String :=
  ["account", "asset", "bank", "bond", "business", "capital", "cash", "credit",
   "debt", "economy", "finance", "fund", "insurance", "invest", "loan", "market",
   "money", "mortgage", "pay", "rate", "risk", "stock", "tax", "wealth",
   "apr", "kyc", "cdo", "reit", "roth", "ira", "401k", "liability", "income",
   "expense", "investing", "crypto",
   "scam", "scams", "tip", "tips", "define", "what is", "mlm", "blockchain",
   "nifty", "sip", "ipo", "eps", "pe", "gdp", "cpi", "sensex", "nifty 50"]

/-- The Hindi substring list of `is_query_financial`. -/
def hindi_financial_substrings : List String :=
  ["बचत", "निवेश", "ऋण", "घोटाला", "वित्तीय", "टिप"]

/-- Embedding of `is_query_financial`. -/
def is_query_financial (user_question : String) : Bool :=
  let query_words := pySplit (pyLower user_question)
  financial_keywords.any (fun word => query_words.contains word)
    || hindi_financial_substrings.any (fun k => strContains user_question k)

/-- The English preamble list of `clean_gemini_output` (first two entries are
built from the lowercased query). -/
def preambles_en (query_lower : String) : List String :=
  [query_lower ++ " stands for", query_lower ++ " is", "it stands for",
   "stands for", "the definition is", "refers to", "is the"]

/-- The Hindi preamble list of `clean_gemini_output`. -/
def preambles_hi : List String :=
  ["इसका मतलब है", "परिभाषा यह है", "को संदर्भित करता है", "है"]

/-- The strip set `":,.- "` used by `clean_gemini_output`. -/
def cleanStripSet : List Char := [':', ',', '.', '-', ' ']

/-- Embedding of `clean_gemini_output`: strip the first matching English
preamble (prefix test on the lowercased text), then the first matching Hindi
preamble (prefix test on the whitespace-stripped text, slice index computed
on the stripped text as in the source). -/
def clean_gemini_output (text query : String) : String :=
  let query_lower := pyLower query
  let cleaned_text := text
  let cleaned_text :=
    match (preambles_en query_lower).find? (fun p => pyStartsWith (pyLower cleaned_text) p) with
    | some p =>
        pyStripSet cleanStripSet
          (pySliceFrom cleaned_text (pyFind (pyLower cleaned_text) p + p.data.length))
    | none => cleaned_text
  let cleaned_text :=
    match preambles_hi.find? (fun p => pyStartsWith (pyStripWs cleaned_text) p) with
    | some p =>
        pyStripSet cleanStripSet
          (pySliceFrom cleaned_text (pyFind (pyStripWs cleaned_text) p + p.data.length))
    | none => cleaned_text
  cleaned_text

/-- A record of the `financial_literacy_terms` family of the JSON source. -/
structure TermItem where
  question : String
  response : String
  response_hindi : Option String
  keywords : Option (List String)

/-- A record of the `saving_tips` family of the JSON source. -/
structure TipItem where
  tip : String
  detail : String
  detail_hindi : Option String

/-- A record of the `scam_alerts` family of the JSON source. -/
structure ScamItem where
  scam_name : String
  warning_sign : String
  prevention_tip : String
  warning_sign_hindi : Option String
  prevention_tip_hindi : Option String

/-- The parsed JSON data consumed by `load_and_index_data` (absent record
families default to the empty list via `data.get(..., [])`). -/
structure FinData where
  financial_literacy_terms : List TermItem
  saving_tips : List TipItem
  scam_alerts : List ScamItem

/-- State of the document source file as seen by `load_and_index_data`:
the `open` may raise `FileNotFoundError`, `json.load` may raise a decode
error, or parsing succeeds. -/
inductive JsonSource where
  | missing
  | malformed
  | ok (data : FinData)

/-- The only error that can escape `load_and_index_data`: the
`json.JSONDecodeError` raised by `json.load` on a malformed source, which the
`except FileNotFoundError` clause does not catch. -/
inductive LoadError where
  | jsonDecodeError
deriving DecidableEq

/-- Document built for one `financial_literacy_terms` item. -/
def termDoc (item : TermItem) : Doc :=
  { doc_type := "Definition"
    search_key := item.question
    content := item.response
    content_hindi := some (item.response_hindi.getD "Translation not available.")
    keywords := [pyLower item.question] ++ (item.keywords.getD []).map pyLower }

/-- Document built for one `saving_tips` item. -/
def tipDoc (item : TipItem) : Doc :=
  let keywords_from_detail :=
    ((pySplit item.detail).filter (fun w => 3 < w.data.length)).map pyLower
  { doc_type := "Saving Tip"
    search_key := item.tip
    content := "Tip: " ++ item.detail
    content_hindi := some ("सुझाव: " ++ item.detail_hindi.getD "अनुवाद उपलब्ध नहीं है।")
    keywords := [pyLower item.tip] ++ keywords_from_detail }

/-- Document built for one `scam_alerts` item. -/
def scamDoc (item : ScamItem) : Doc :=
  let scam_content := "Warning: " ++ item.warning_sign ++ " | Prevention: " ++ item.prevention_tip
  let scam_content_hindi :=
    "चेतावनी: " ++ item.warning_sign_hindi.getD "अनुवाद उपलब्ध नहीं है।"
      ++ " | रोकथाम: " ++ item.prevention_tip_hindi.getD "अनुवाद उपलब्ध नहीं है।"
  let keywords_from_scam :=
    ((pySplit scam_content).filter (fun w => 3 < w.data.length)).map pyLower
  { doc_type := "Scam Alert"
    search_key := item.scam_name
    content := scam_content
    content_hindi := some scam_content_hindi
    keywords := [pyLower item.scam_name] ++ keywords_from_scam }

/-- Embedding of `load_and_index_data`: on `FileNotFoundError` the function
prints and returns, leaving the global store as it was; a malformed source
raises out of the function; otherwise the three record families are appended
to the store in order. -/
def load_and_index_data (src : JsonSource) (store : List Doc) : Except LoadError (List Doc) :=
  match src with
  | .missing => .ok store
  | .malformed => .error .jsonDecodeError
  | .ok data =>
      .ok (store ++ data.financial_literacy_terms.map termDoc
                 ++ data.saving_tips.map tipDoc
                 ++ data.scam_alerts.map scamDoc)

/-- Embedding of `retrieve_related_info`: `random.choice` over the documents
of the given type, modelled by indexing with `seed % length` (none when the
pool is empty). -/
def retrieve_related_info (seed : Nat) (doc_type lang : String) (store : List Doc) :
    Option RelInfo :=
  let docs := store.filter (fun d => d.doc_type == doc_type)
  match docs.get? (seed % docs.length) with
  | some doc => some ⟨doc.search_key, doc.doc_type, getContent doc lang⟩
  | none => none

/-- Remove-at-index helper for the `random.sample` model: returns the element
at position `k` and the list without it. -/
def pickRemove (k : Nat) : List Doc → Option (Doc × List Doc)
  | [] => none
  | x :: xs =>
    match k with
    | 0 => some (x, xs)
    | k + 1 => (pickRemove k xs).map (fun p => (p.1, x :: p.2))

/-- Model of `random.sample(l, n)`: `n` seeded draws without replacement, the
output listed in sampling order. -/
def pySample (seeds : List Nat) : Nat → List Doc → List Doc
  | 0, _ => []
  | n + 1, l =>
    match pickRemove (seeds.headD 0 % l.length) l with
    | some (a, rest) => a :: pySample seeds.tail n rest
    | none => []

/-- One numbered line of the multi-tip listing
(`f"{i+1}. **{search_key} ({doc_type}):**\n   {body}\n\n"`). -/
def renderTipLine (lang : String) (i : Nat) (doc : Doc) : String :=
  toString (i + 1) ++ ". **" ++ doc.search_key ++ " (" ++ doc.doc_type ++ "):**\n"
    ++ "   " ++ getContent doc lang ++ "\n\n"

/-- Header plus numbered lines for a selected tip list, final `.strip()`
included, exactly as `search_multiple_tips` builds its response string. -/
def renderTipList (lang : String) (num_to_return : Nat) (selected_tips : List Doc) : String :=
  let response :=
    if lang == "hindi" then
      "यहाँ " ++ toString num_to_return ++ " लोकप्रिय बचत सुझाव दिए गए हैं:\n\n"
    else
      "Here are " ++ toString num_to_return ++ " popular Saving Tips:\n\n"
  let response := response ++ String.join (selected_tips.enum.map (fun p => renderTipLine lang p.1 p.2))
  pyStripWs response

/-- Embedding of `search_multiple_tips`. -/
def search_multiple_tips (seeds : List Nat) (count : Nat) (lang : String) (store : List Doc) :
    String :=
  let tips := store.filter (fun d => d.doc_type == "Saving Tip")
  let num_to_return := min count tips.length
  let selected_tips := pySample seeds num_to_return tips
  renderTipList lang num_to_return selected_tips

/-- The constant `SCORE_THRESHOLD = 0.5` of `search_custom_data`, in tenths. -/
def SCORE_THRESHOLD : Nat := 5

/-- Score of one document against the lowercased query: the additive bonus
ladder in the body of the `for doc in SEARCHABLE_DOCUMENTS` loop, in tenths
of the source's float values (1.5 is 15, 1.0 is 10, 0.5 is 5, 0.4 is 4). -/
def scoreDoc (query : String) (doc : Doc) : Nat :=
  let score : Nat := 0
  let score :=
    if strContains query "scam" && (doc.doc_type == "Scam Alert") then score + 15
    else if (strContains query "tip" || strContains query "save") && (doc.doc_type == "Saving Tip") then
      score + 10
    else if (strContains query "what is" || strContains query "define" || strContains query "term")
        && (doc.doc_type == "Definition") then
      score + 5
    else score
  let score := if strContains query (pyLower doc.search_key) then score + 10 else score
  let score := doc.keywords.foldl (fun s keyword => if strContains query keyword then s + 5 else s) score
  let score := if strContains (pyLower doc.content) query then score + 4 else score
  score

/-- One iteration of the selection loop of `search_custom_data`: state is
`(highest_score, top_matches)`. -/
def selStep (query : String) (st : Nat × List Doc) (doc : Doc) : Nat × List Doc :=
  let score := scoreDoc query doc
  if st.1 < score then (score, [doc])
  else if score = st.1 ∧ SCORE_THRESHOLD ≤ score then (st.1, st.2 ++ [doc])
  else st

/-- The `(highest_score, top_matches)` pair after the whole document loop of
`search_custom_data`. -/
def searchScored (store : List Doc) (user_query : String) : Nat × List Doc :=
  store.foldl (selStep (pyLower user_query)) (0, [])

/-- Embedding of `search_custom_data`: final `random.choice(top_matches)`
modelled by indexing with `seed % length`. -/
def search_custom_data (seed : Nat) (store : List Doc) (user_query : String) : Option Doc :=
  let st := searchScored store user_query
  if SCORE_THRESHOLD ≤ st.1 ∧ st.2 ≠ [] then st.2.get? (seed % st.2.length) else none

/-- Embedding of `call_gemini_api_fallback`: the locale-specific system
instruction only shapes the external call; what is observable is the
`try/except` result, the two error branches interpolating the exception into
a fixed sentence. -/
def call_gemini_api_fallback (result : GeminiResult) (user_question lang : String) : String :=
  match result with
  | .ok text => clean_gemini_output text user_question
  | .apiError e => "A Gemini API error occurred: " ++ e
  | .unknownError e => "An unknown error occurred: " ++ e

/-- The initial bilingual language-selection menu of `get_chatbot_response`. -/
def language_menu : String :=
  "Hello! I\x27m your **Financial Literacy Chatbot**.\n"
    ++ "Please choose your preferred language to proceed:\n"
    ++ "1. English (अंग्रेज़ी)\n"
    ++ "2. Hindi (हिंदी)\n"
    ++ "-------------------------------------\n"
    ++ "Or, start typing your financial question directly."

/-- Confirmation shown after the explicit Hindi choice. -/
def chosen_hindi_message : String :=
  "नमस्ते! आपने हिंदी भाषा चुनी है। मैं आपके वित्तीय शब्दों, बचत के सुझाव और घोटालों की चेतावनी में मदद कर सकता हूँ। आप क्या जानना चाहेंगे?"

/-- Confirmation shown after the explicit English choice. -/
def chosen_english_message : String :=
  "Hello! You have chosen English. I can help you with financial terms, saving tips, and scam alerts. What can I look up for you?"

/-- Hindi greeting string assigned (but not returned) in step 2. -/
def hello_message_hindi : String :=
  "नमस्ते! मैं आपका **वित्तीय साक्षरता चैटबॉट** हूँ। मैं वित्तीय शब्द, बचत के सुझाव और घोटालों की चेतावनी में आपकी मदद कर सकता हूँ। आप क्या जानना चाहेंगे?"

/-- English greeting string assigned (but not returned) in step 2. -/
def hello_message_english : String :=
  "Hello! I\x27m your **Financial Literacy Chatbot**. I can help you with financial terms, saving tips, and scam alerts. What can I look up for you?"

/-- Hindi vague-query prompt. -/
def vague_message_hindi : String :=
  "मुझे खोजने के लिए एक स्पष्ट विषय चाहिए! कृपया उस शब्द को निर्दिष्ट करें जिसके बारे में आप अधिक जानकारी चाहते हैं।"

/-- English vague-query prompt. -/
def vague_message_english : String :=
  "I need a clearer topic to search! Please specify the term you want more information about (e.g., \x27What is SIP?\x27 or \x27Give me a saving tip\x27)."

/-- Hindi out-of-scope refusal. -/
def out_of_scope_hindi : String :=
  "❌ मैं केवल **वित्तीय साक्षरता** से संबंधित सवालों का जवाब दे सकता हूँ। कृपया कोई वित्तीय शब्द या सलाह पूछें।"

/-- English out-of-scope refusal. -/
def out_of_scope_english : String :=
  "❌ I can only answer questions related to **Financial Literacy** (terms, tips, and scams). Please ask a financial query."

/-- Step 1 of `get_chatbot_response`: the explicit language choice. -/
def explicit_lang_of (query : String) : Option String :=
  if ["1", "english", "e"].contains query then some "english"
  else if ["2", "hindi", "h"].contains query then some "hindi"
  else none

/-- The greeting word list of step 3. -/
def short_greetings : List String :=
  ["hello", "hi", "hey", "howdy", "sup", "namaste", "namaskar"]

/-- Step 3 of `get_chatbot_response`: the conversational check. -/
def isGreetingQuery (query : String) : Bool :=
  short_greetings.any (fun g => strContains query g)
    || ["thank you", "thanks", "bye", "goodbye", "cheers", "start"].contains query
    || pyStartsWith query "how are you"
    || pyStartsWith query "good morning"
    || pyStartsWith query "good evening"

/-- The vague keyword list of step 4. -/
def vague_keywords : List String := ["more", "next", "again", "tell me more"]

/-- Step 4 of `get_chatbot_response`: the vague-query check. -/
def isVagueQuery (query user_question : String) : Bool :=
  vague_keywords.contains query
    || ((pySplit query).length ≤ 2 && !is_query_financial user_question)

/-- Step 5 trigger of `get_chatbot_response`: a tip-flavoured query. -/
def isTipQuery (query : String) : Bool :=
  strContains query "saving tip" || strContains query "tip"
    || strContains query "bachat" || strContains query "sujhav"

/-- The `number_map` dict of step 5. -/
def number_map : List (String × Nat) :=
  [("two", 2), ("three", 3), ("four", 4), ("5", 5), ("five", 5), ("multiple", 3),
   ("several", 3), ("many", 3), ("do", 2), ("teen", 3), ("char", 4), ("paanch", 5)]

/-- The count-resolution loop of step 5: first word that is a `number_map`
key or a numeral greater than one wins; otherwise `count` stays 1. -/
def resolveCountAux : List String → Nat
  | [] => 1
  | w :: ws =>
    match (number_map.find? (fun p => p.1 == w)).map Prod.snd with
    | some n => n
    | none =>
        if pyIsDigit w && decide (1 < strToNat w.data) then strToNat w.data
        else resolveCountAux ws

/-- Count resolved by step 5 for a normalized query. -/
def resolveTipCount (query : String) : Nat :=
  resolveCountAux (pySplit query)

/-- Python `sep.join(parts)`. -/
def pyJoin (sep : String) : List String → String
  | [] => ""
  | [a] => a
  | a :: b :: rest => a ++ sep ++ pyJoin sep (b :: rest)

/-- The `localized_headers[lang]['explained']` entry. -/
def hdrExplained (lang : String) : String :=
  if lang == "hindi" then "**📚 वित्तीय शब्द की व्याख्या:**" else "**📚 Financial Term Explained:**"

/-- The `localized_headers[lang]['tip']` entry. -/
def hdrTip (lang : String) : String :=
  if lang == "hindi" then "\n***\n**💡 संबंधित बचत सुझाव:**" else "\n***\n**💡 Related Saving Tip:**"

/-- The `localized_headers[lang]['scam']` entry. -/
def hdrScam (lang : String) : String :=
  if lang == "hindi" then "\n***\n**🚨 वित्तीय घोटाला चेतावनी:**" else "\n***\n**🚨 Financial Scam Alert:**"

/-- Step 8 composition of a Definition response (`response_parts` built and
joined with `"\n".join`): the primary block, then the optional related-tip
and scam-alert blocks with their localized sub-headers. -/
def defResponseParts (lang title body : String) (tip scam : Option RelInfo) : String :=
  let part1 := hdrExplained lang ++ "\n**" ++ title ++ "**:\n" ++ body
  let parts := [part1]
  let parts :=
    match tip with
    | some t => parts ++ [hdrTip lang, "**" ++ t.search_key ++ " (" ++ t.doc_type ++ "):**\n" ++ t.content]
    | none => parts
  let parts :=
    match scam with
    | some sc => parts ++ [hdrScam lang, "**" ++ sc.search_key ++ " (" ++ sc.doc_type ++ "):**\n" ++ sc.content]
    | none => parts
  pyJoin "\n" parts

/-- Embedding of `get_chatbot_response`: the full step 1–9 dispatcher. -/
def get_chatbot_response (seeds : Seeds) (gemini : GeminiResult) (store : List Doc)
    (user_question : String) : String :=
  let query := pyStripWs (pyLower user_question)
  match explicit_lang_of query with
  | some lang =>
      if lang == "hindi" then chosen_hindi_message else chosen_english_message
  | none =>
    let lang := detect_language_from_query user_question
    let vague_message := if lang == "hindi" then vague_message_hindi else vague_message_english
    let out_of_scope_message := if lang == "hindi" then out_of_scope_hindi else out_of_scope_english
    if isGreetingQuery query then language_menu
    else if isVagueQuery query user_question then vague_message
    else if isTipQuery query && decide (1 < resolveTipCount query) then
      search_multiple_tips seeds.sampleSeeds (resolveTipCount query) lang store
    else
      let primary0 := search_custom_data seeds.tieSeed store user_question
      let primary :=
        if primary0.isNone && is_query_financial user_question then
          some { doc_type := "Definition"
                 search_key := user_question
                 content := call_gemini_api_fallback gemini user_question lang
                 content_hindi := none
                 keywords := [] }
        else primary0
      match primary with
      | none => out_of_scope_message
      | some primary_match =>
        if primary_match.doc_type == "Definition" then
          let tip := retrieve_related_info seeds.tipSeed "Saving Tip" lang store
          let scam := retrieve_related_info seeds.scamSeed "Scam Alert" lang store
          let definition_title :=
            if primary_match.search_key == user_question then
              (if lang == "hindi" then user_question else pyTitle user_question)
            else primary_match.search_key
          let body :=
            if primary_match.search_key == user_question then primary_match.content
            else getContent primary_match lang
          defResponseParts lang definition_title body tip scam
        else
          "**" ++ primary_match.search_key ++ " (" ++ primary_match.doc_type ++ "):**\n"
            ++ getContent primary_match lang

/-- The finance keyword list with the two multi-word entries `"what is"` and
`"nifty 50"` removed; written from the claim's words for the refinement
comparison with `is_query_financial` as coded. -/
def financial_keywords_reduced : List String :=
  financial_keywords.filter (fun k => !(["what is", "nifty 50"] : List String).contains k)

/-- The relevance classifier as the claim describes it: identical to
`is_query_financial` but over the reduced keyword list. -/
def is_query_financial_reduced (user_question : String) : Bool :=
  let query_words := pySplit (pyLower user_question)
  financial_keywords_reduced.any (fun word => query_words.contains word)
    || hindi_financial_substrings.any (fun k => strContains user_question k)

/-- State-passing form of `search_custom_data`: the function only reads the
global `SEARCHABLE_DOCUMENTS`, so the store it leaves behind is the store it
was given. -/
def search_custom_data_state (seed : Nat) (store : List Doc) (user_query : String) :
    Option Doc × List Doc :=
  (search_custom_data seed store user_query, store)

/-- State-passing form of `retrieve_related_info`. -/
def retrieve_related_info_state (seed : Nat) (doc_type lang : String) (store : List Doc) :
    Option RelInfo × List Doc :=
  (retrieve_related_info seed doc_type lang store, store)

/-- State-passing form of `search_multiple_tips`. -/
def search_multiple_tips_state (seeds : List Nat) (count : Nat) (lang : String)
    (store : List Doc) : String × List Doc :=
  (search_multiple_tips seeds count lang store, store)

/-- State-passing form of `get_chatbot_response`: the document store is
threaded through every operation the dispatcher invokes and returned
alongside the reply text. -/
def get_chatbot_response_state (seeds : Seeds) (gemini : GeminiResult) (store : List Doc)
    (user_question : String) : String × List Doc :=
  let query := pyStripWs (pyLower user_question)
  match explicit_lang_of query with
  | some lang =>
      (if lang == "hindi" then chosen_hindi_message else chosen_english_message, store)
  | none =>
    let lang := detect_language_from_query user_question
    let vague_message := if lang == "hindi" then vague_message_hindi else vague_message_english
    let out_of_scope_message := if lang == "hindi" then out_of_scope_hindi else out_of_scope_english
    if isGreetingQuery query then (language_menu, store)
    else if isVagueQuery query user_question then (vague_message, store)
    else if isTipQuery query && decide (1 < resolveTipCount query) then
      search_multiple_tips_state seeds.sampleSeeds (resolveTipCount query) lang store
    else
      let s6 := search_custom_data_state seeds.tieSeed store user_question
      let primary0 := s6.1
      let store6 := s6.2
      let primary :=
        if primary0.isNone && is_query_financial user_question then
          some { doc_type := "Definition"
                 search_key := user_question
                 content := call_gemini_api_fallback gemini user_question lang
                 content_hindi := none
                 keywords := [] }
        else primary0
      match primary with
      | none => (out_of_scope_message, store6)
      | some primary_match =>
        if primary_match.doc_type == "Definition" then
          let s8a := retrieve_related_info_state seeds.tipSeed "Saving Tip" lang store6
          let tip := s8a.1
          let s8b := retrieve_related_info_state seeds.scamSeed "Scam Alert" lang s8a.2
          let scam := s8b.1
          let definition_title :=
            if primary_match.search_key == user_question then
              (if lang == "hindi" then user_question else pyTitle user_question)
            else primary_match.search_key
          let body :=
            if primary_match.search_key == user_question then primary_match.content
            else getContent primary_match lang
          (defResponseParts lang definition_title body tip scam, s8b.2)
        else
          ("**" ++ primary_match.search_key ++ " (" ++ primary_match.doc_type ++ "):**\n"
             ++ getContent primary_match lang, store6)

/-- Invariant maintained by the selection loop of `search_custom_data`:
every current tie-set member scores exactly the running maximum, and once
the maximum has reached the threshold the tie set is non-empty. -/
def SelInv (query : String) (st : Nat × List Doc) : Prop :=
  (∀ d ∈ st.2, scoreDoc query d = st.1) ∧ (SCORE_THRESHOLD ≤ st.1 → st.2 ≠ [])

/-- Fixture: a stored Definition document whose `search_key` coincides with a
possible raw utterance. -/
def exSipDoc : Doc :=
  { doc_type := "Definition"
    search_key := "SIP"
    content := "A plan to invest fixed amounts regularly."
    content_hindi := some "नियमित निवेश योजना।"
    keywords := ["sip"] }

/-- Fixture: a store holding only `exSipDoc`. -/
def exStore : List Doc := [exSipDoc]

/-- Fixture: all-zero seeds. -/
def seeds0 : Seeds := ⟨0, 0, 0, []⟩

/-- Fixture: two Definition documents that tie on the query "what is sip". -/
def exDocA : Doc :=
  { doc_type := "Definition", search_key := "XX", content := "cc one",
    content_hindi := some "h1", keywords := ["sip"] }

/-- Fixture: second member of the tied pair. -/
def exDocB : Doc :=
  { doc_type := "Definition", search_key := "YY", content := "cc two",
    content_hindi := some "h2", keywords := ["sip"] }

/-- Fixture: the tied two-document store. -/
def exTieStore : List Doc := [exDocA, exDocB]

/-- Fixture: three distinct saving-tip documents. -/
def exTipStore : List Doc :=
  [ { doc_type := "Saving Tip", search_key := "Budget", content := "Tip: track spending",
      content_hindi := some "t1", keywords := [] },
    { doc_type := "Saving Tip", search_key := "Emergency Fund", content := "Tip: build a buffer",
      content_hindi := some "t2", keywords := [] },
    { doc_type := "Saving Tip", search_key := "Automate", content := "Tip: automate transfers",
      content_hindi := some "t3", keywords := [] } ]

/-- Fixture: a stored Definition document whose Devanagari `search_key`
coincides with a possible Hindi-locale raw utterance. -/
def exHindiDoc : Doc :=
  { doc_type := "Definition"
    search_key := "बचत"
    content := "Savings explained."
    content_hindi := some "बचत की व्याख्या।"
    keywords := ["बचत"] }

/-- Fixture: a store holding only `exHindiDoc`. -/
def exHindiStore : List Doc := [exHindiDoc]

/-! Helper lemmas shared by the claim theorems. -/

theorem isPrefixOf_append_self (l t : List Char) : l.isPrefixOf (l ++ t) = true := by
  induction l with
  | nil => simp [List.isPrefixOf]
  | cons a as ih => simp [List.isPrefixOf, ih]

theorem subListAux_append_mid (pre mid post : List Char) :
    subListAux mid (pre ++ (mid ++ post)) = true := by
  induction pre with
  | nil =>
    cases mid with
    | nil => cases post <;> simp [subListAux]
    | cons m mt => simp [subListAux, isPrefixOf_append_self]
  | cons p ps ih => simp [subListAux, ih]

theorem strContains_append_mid (a mid b : String) :
    strContains (a ++ (mid ++ b)) mid = true := by
  unfold strContains
  rw [String.data_append, String.data_append]
  exact subListAux_append_mid a.data mid.data b.data

theorem keywordFold_ge_init (query : String) (ks : List String) (init : Nat) :
    init ≤ ks.foldl (fun s keyword => if strContains query keyword then s + 5 else s) init := by
  induction ks generalizing init with
  | nil => simp
  | cons a t ih =>
    rw [List.foldl_cons]
    exact le_trans (by split <;> omega) (ih _)

theorem keywordFold_bonus (query kw : String) (hc : strContains query kw = true) :
    ∀ ks : List String, kw ∈ ks → ∀ init : Nat,
      init + 5 ≤ ks.foldl (fun s keyword => if strContains query keyword then s + 5 else s) init := by
  intro ks
  induction ks with
  | nil => intro h; cases h
  | cons a t ih =>
    intro hmem init
    rw [List.foldl_cons]
    rcases List.mem_cons.mp hmem with h | h
    · rw [← h, if_pos hc]
      exact keywordFold_ge_init query t (init + 5)
    · calc init + 5 ≤ (if strContains query a then init + 5 else init) + 5 := by
            split <;> omega
        _ ≤ _ := ih h _

theorem splitWsAux_no_ws : ∀ cs cur : List Char,
    (∀ c ∈ cur, c.isWhitespace = false) →
    ∀ t ∈ splitWsAux cur cs, ∀ c ∈ t, c.isWhitespace = false := by
  intro cs
  induction cs with
  | nil =>
    intro cur hcur t ht c hc
    unfold splitWsAux at ht
    split at ht
    · cases ht
    · rw [List.mem_singleton] at ht
      subst ht
      exact hcur c (List.mem_reverse.mp hc)
  | cons a rest ih =>
    intro cur hcur t ht
    unfold splitWsAux at ht
    split at ht
    · split at ht
      · exact ih [] (by intro c hc; cases hc) t ht
      · rcases List.mem_cons.mp ht with h | h
        · subst h
          intro c hc
          exact hcur c (List.mem_reverse.mp hc)
        · exact ih [] (by intro c hc; cases hc) t h
    · rename_i hw
      refine ih (a :: cur) ?_ t ht
      intro c hc
      rcases List.mem_cons.mp hc with h | h
      · subst h
        simpa using hw
      · exact hcur c h

theorem pySplit_token_no_ws (s t : String) (ht : t ∈ pySplit s) :
    ∀ c ∈ t.data, c.isWhitespace = false := by
  unfold pySplit at ht
  rcases List.mem_map.mp ht with ⟨l, hl, rfl⟩
  exact splitWsAux_no_ws s.data [] (by intro c hc; cases hc) l hl

theorem contains_multiword_false (s w : String) (hw : ' ' ∈ w.data) :
    (pySplit s).contains w = false := by
  by_contra h
  rw [Bool.not_eq_false] at h
  have hmem : w ∈ pySplit s := List.elem_iff.mp (by simpa [List.contains] using h)
  have h2 := pySplit_token_no_ws s w hmem ' ' hw
  simp at h2

/-- C3 counterexample: a malformed source makes `load_and_index_data` raise
(the `except` clause only catches `FileNotFoundError`), contradicting the
claim that no error propagates out of loading for a malformed source. -/
theorem C3_load_malformed_counterexample :
    load_and_index_data JsonSource.malformed [] = Except.error LoadError.jsonDecodeError := rfl

/-- C3 amended: only a missing source fails recoverably — the store is left
unchanged (so empty stays empty) and retrieval over the empty store returns
no match for every query and seed; a malformed source raises. -/
theorem C3_load_missing_amended :
    (∀ store : List Doc, load_and_index_data JsonSource.missing store = Except.ok store)
    ∧ (∀ (seed : Nat) (user_query : String), search_custom_data seed [] user_query = none) := by
  refine ⟨fun store => rfl, fun seed q => ?_⟩
  unfold search_custom_data searchScored
  simp

/-- C4: a Definition document with `search_key` "SIP" and keyword "sip"
scores at least 1.5 (15 in tenths) on the utterance "What is SIP?" (0.5
intent bonus plus 1.0 key-substring bonus at minimum), exceeding the 0.5
threshold. -/
theorem C4_sip_definition_score (doc : Doc)
    (h1 : doc.doc_type = "Definition") (h2 : doc.search_key = "SIP")
    (h3 : "sip" ∈ doc.keywords) :
    15 ≤ scoreDoc (pyLower "What is SIP?") doc
      ∧ SCORE_THRESHOLD < scoreDoc (pyLower "What is SIP?") doc := by
  have key : strContains (pyLower "What is SIP?") (pyLower "SIP") = true := by decide
  have kws : strContains (pyLower "What is SIP?") "sip" = true := by decide
  have cScam : strContains (pyLower "What is SIP?") "scam" = false := by decide
  have cWhat : strContains (pyLower "What is SIP?") "what is" = true := by decide
  have eq1 : (("Definition" : String) == "Scam Alert") = false := by decide
  have eq2 : (("Definition" : String) == "Saving Tip") = false := by decide
  have eq3 : (("Definition" : String) == "Definition") = true := by decide
  unfold scoreDoc
  rw [h1, h2]
  simp only [cScam, cWhat, eq1, eq2, eq3, key, Bool.false_and, Bool.and_false, Bool.true_or,
    Bool.and_true, Bool.false_eq_true, if_false, if_true, Bool.and_self]
  have hb := keywordFold_bonus (pyLower "What is SIP?") "sip" kws doc.keywords h3 (0 + 5 + 10)
  constructor
  · split <;> omega
  · have hth : SCORE_THRESHOLD = 5 := rfl
    rw [hth]
    split <;> omega

/-- C10: the classifier tests whitespace tokens for exact membership, so the
multi-word entries "what is" and "nifty 50" can never match; removing them
leaves the classifier's output unchanged on every utterance. -/
theorem C10_classifier_reduced_equiv (s : String) :
    is_query_financial_reduced s = is_query_financial s := by
  simp only [is_query_financial_reduced, is_query_financial]
  congr 1
  rw [Bool.eq_iff_iff]
  simp only [List.any_eq_true]
  constructor
  · rintro ⟨w, hw, hc⟩
    unfold financial_keywords_reduced at hw
    exact ⟨w, (List.mem_filter.mp hw).1, hc⟩
  · rintro ⟨w, hw, hc⟩
    refine ⟨w, ?_, hc⟩
    unfold financial_keywords_reduced
    rw [List.mem_filter]
    refine ⟨hw, ?_⟩
    have hne1 : w ≠ "what is" := by
      intro h
      have hfalse := contains_multiword_false (pyLower s) w (by rw [h]; decide)
      rw [hc] at hfalse
      cases hfalse
    have hne2 : w ≠ "nifty 50" := by
      intro h
      have hfalse := contains_multiword_false (pyLower s) w (by rw [h]; decide)
      rw [hc] at hfalse
      cases hfalse
    simp [hne1, hne2]

/-- C4 witness at the concrete fixture document. -/
theorem C4_sip_definition_score_witness :
    15 ≤ scoreDoc (pyLower "What is SIP?") exSipDoc
      ∧ SCORE_THRESHOLD < scoreDoc (pyLower "What is SIP?") exSipDoc :=
  C4_sip_definition_score exSipDoc rfl rfl (by decide)

theorem selStep_inv (query : String) (st : Nat × List Doc) (doc : Doc) (h : SelInv query st) :
    SelInv query (selStep query st doc) := by
  unfold SelInv at h ⊢
  simp only [selStep]
  split
  · constructor
    · intro d hd
      rw [List.mem_singleton] at hd
      subst hd
      rfl
    · intro _
      simp
  · split
    · rename_i heq
      constructor
      · intro d hd
        rcases List.mem_append.mp hd with h1 | h1
        · exact h.1 d h1
        · rw [List.mem_singleton] at h1
          subst h1
          exact heq.1
      · intro _
        simp
    · exact h

theorem foldl_selStep_inv (query : String) (l : List Doc) :
    ∀ st : Nat × List Doc, SelInv query st → SelInv query (l.foldl (selStep query) st) := by
  induction l with
  | nil => intro st h; simpa using h
  | cons d t ih =>
    intro st h
    rw [List.foldl_cons]
    exact ih _ (selStep_inv query st d h)

theorem searchScored_inv (store : List Doc) (user_query : String) :
    SelInv (pyLower user_query) (searchScored store user_query) := by
  unfold searchScored
  apply foldl_selStep_inv
  unfold SelInv
  constructor
  · intro d hd
    cases hd
  · intro hthr
    exfalso
    simp [SCORE_THRESHOLD] at hthr

theorem search_some_mem (store : List Doc) (user_query : String) (s : Nat) (d : Doc)
    (hd : search_custom_data s store user_query = some d) :
    d ∈ (searchScored store user_query).2 := by
  simp only [search_custom_data] at hd
  split at hd
  · exact List.get?_mem hd
  · exact Option.noConfusion hd

theorem search_none_iff (store : List Doc) (user_query : String) (s : Nat) :
    search_custom_data s store user_query = none ↔
      ¬(SCORE_THRESHOLD ≤ (searchScored store user_query).1
          ∧ (searchScored store user_query).2 ≠ []) := by
  simp only [search_custom_data]
  split
  · rename_i hcond
    have hlen := List.length_pos.mpr hcond.2
    rw [List.get?_eq_get (Nat.mod_lt _ hlen)]
    constructor
    · intro h
      exact (Option.some_ne_none _ h).elim
    · intro h
      exact absurd hcond h
  · rename_i hcond
    exact ⟨fun _ => hcond, fun _ => rfl⟩

/-- C1: characterisation of the retriever's selection rule.  The result is
"no match" exactly when the final maximum stays below the 0.5 threshold; a
returned document is always a member of the final tie set and scores exactly
the final maximum, which then clears the threshold; and every tie-set member
is returned for some seed (the model's reading of a uniformly random choice
among the tie set). -/
theorem C1_retriever_selection (user_query : String) (store : List Doc) (seed : Nat) :
    (search_custom_data seed store user_query = none ↔
      (searchScored store user_query).1 < SCORE_THRESHOLD)
    ∧ (∀ d : Doc, search_custom_data seed store user_query = some d →
        d ∈ (searchScored store user_query).2
          ∧ scoreDoc (pyLower user_query) d = (searchScored store user_query).1
          ∧ SCORE_THRESHOLD ≤ (searchScored store user_query).1)
    ∧ (∀ d ∈ (searchScored store user_query).2,
        SCORE_THRESHOLD ≤ (searchScored store user_query).1 →
          ∃ s : Nat, search_custom_data s store user_query = some d) := by
  obtain ⟨hsc, hne⟩ := searchScored_inv store user_query
  refine ⟨?_, ?_, ?_⟩
  · rw [search_none_iff]
    constructor
    · intro h
      by_contra hge
      push_neg at hge
      exact h ⟨hge, hne hge⟩
    · intro h hcond
      exact absurd hcond.1 (not_le.mpr h)
  · intro d hd
    have hmem := search_some_mem store user_query seed d hd
    have hcond : SCORE_THRESHOLD ≤ (searchScored store user_query).1 := by
      by_contra hlt
      have hnone := (search_none_iff store user_query seed).mpr (fun hc => hlt hc.1)
      rw [hnone] at hd
      exact Option.noConfusion hd
    exact ⟨hmem, hsc d hmem, hcond⟩
  · intro d hd hthr
    refine ⟨(searchScored store user_query).2.indexOf d, ?_⟩
    simp only [search_custom_data]
    rw [if_pos ⟨hthr, fun hnil => by rw [hnil] at hd; cases hd⟩]
    have hidx : (searchScored store user_query).2.indexOf d
        < (searchScored store user_query).2.length := List.indexOf_lt_length.mpr hd
    rw [Nat.mod_eq_of_lt hidx, List.get?_eq_get hidx, List.indexOf_get hidx]

/-- C1 witness: the selection characterisation applied to the concrete
single-document store and the utterance "SIP". -/
theorem C1_retriever_selection_witness :
    exSipDoc ∈ (searchScored exStore "SIP").2
      ∧ scoreDoc (pyLower "SIP") exSipDoc = (searchScored exStore "SIP").1
      ∧ SCORE_THRESHOLD ≤ (searchScored exStore "SIP").1 :=
  (C1_retriever_selection "SIP" exStore 0).2.1 exSipDoc (by decide)

/-- C8: for a fixed query and store the computed maximum score is independent
of the tie-break randomness — any two returned documents (across any two
seeds) have equal scores, and the no-match outcome is seed-independent —
while re-running with the same seed reproduces the same chosen document. -/
theorem C8_retriever_determinism (user_query : String) (store : List Doc) (s1 s2 : Nat) :
    (∀ d1 d2 : Doc, search_custom_data s1 store user_query = some d1 →
        search_custom_data s2 store user_query = some d2 →
        scoreDoc (pyLower user_query) d1 = scoreDoc (pyLower user_query) d2)
    ∧ (search_custom_data s1 store user_query = none ↔
        search_custom_data s2 store user_query = none)
    ∧ search_custom_data s1 store user_query = search_custom_data s1 store user_query := by
  obtain ⟨hsc, hne⟩ := searchScored_inv store user_query
  refine ⟨?_, ?_, rfl⟩
  · intro d1 d2 h1 h2
    rw [hsc d1 (search_some_mem store user_query s1 d1 h1),
      hsc d2 (search_some_mem store user_query s2 d2 h2)]
  · rw [search_none_iff store user_query s1, search_none_iff store user_query s2]

/-- C8 witness: two different seeds pick the two different tied documents,
whose scores agree. -/
theorem C8_retriever_determinism_witness :
    scoreDoc (pyLower "what is sip") exDocA = scoreDoc (pyLower "what is sip") exDocB :=
  (C8_retriever_determinism "what is sip" exTieStore 0 1).1 exDocA exDocB
    (by decide) (by decide)

theorem char_toNat_ofNat (n : Nat) (h : n.isValidChar) : (Char.ofNat n).toNat = n := by
  simp [Char.ofNat, h, Char.ofNatAux, Char.toNat, UInt32.toNat, BitVec.toNat_ofNatLt]

theorem isDevanagariChar_iff (c : Char) :
    isDevanagariChar c = true ↔ 2304 ≤ c.toNat ∧ c.toNat ≤ 2431 := by
  unfold isDevanagariChar
  rw [Bool.and_eq_true, decide_eq_true_eq, decide_eq_true_eq, Char.le_def, Char.le_def]
  exact ⟨fun ⟨a, b⟩ => ⟨a, b⟩, fun ⟨a, b⟩ => ⟨a, b⟩⟩

theorem toLower_toNat_of_upper (c : Char) (h : 65 ≤ c.toNat ∧ c.toNat ≤ 90) :
    (Char.toLower c).toNat = c.toNat + 32 := by
  simp only [Char.toLower]
  rw [if_pos ⟨h.1, h.2⟩]
  exact char_toNat_ofNat _ (Or.inl (by omega))

theorem toLower_eq_self_of_not_upper (c : Char) (h : ¬(65 ≤ c.toNat ∧ c.toNat ≤ 90)) :
    Char.toLower c = c := by
  simp only [Char.toLower]
  exact if_neg h

theorem isDevanagariChar_toLower (c : Char) :
    isDevanagariChar (Char.toLower c) = isDevanagariChar c := by
  rw [Bool.eq_iff_iff, isDevanagariChar_iff, isDevanagariChar_iff]
  by_cases h : 65 ≤ c.toNat ∧ c.toNat ≤ 90
  · rw [toLower_toNat_of_upper c h]
    omega
  · rw [toLower_eq_self_of_not_upper c h]

theorem any_isDev_pyLower (s : String) :
    (pyLower s).data.any isDevanagariChar = s.data.any isDevanagariChar := by
  show (s.data.map Char.toLower).any isDevanagariChar = _
  rw [List.any_map]
  congr 1
  funext c
  exact isDevanagariChar_toLower c

theorem any_contains_comm (A B : List String) :
    A.any (fun a => B.contains a) = B.any (fun b => A.contains b) := by
  rw [Bool.eq_iff_iff]
  simp only [List.any_eq_true]
  constructor
  · rintro ⟨a, ha, hb⟩
    exact ⟨a, List.elem_iff.mp hb, List.elem_iff.mpr ha⟩
  · rintro ⟨b, hb, ha⟩
    exact ⟨b, List.elem_iff.mp ha, List.elem_iff.mpr hb⟩

/-- C5: the language detector returns "hindi" whenever the utterance holds a
Devanagari character; on utterances without one it returns "hindi" exactly
when some lowercased whitespace token equals a transliterated-Hindi keyword,
and "english" otherwise. -/
theorem C5_language_detector (s : String) :
    (s.data.any isDevanagariChar = true → detect_language_from_query s = "hindi")
    ∧ (s.data.any isDevanagariChar = false →
        ((detect_language_from_query s = "hindi") ↔
          (pySplit (pyLower s)).any (fun t => hindi_translit_keywords.contains t) = true)
        ∧ ((pySplit (pyLower s)).any (fun t => hindi_translit_keywords.contains t) = false →
            detect_language_from_query s = "english")) := by
  have hdev := any_isDev_pyLower s
  constructor
  · intro h
    simp [detect_language_from_query, hdev, h]
  · intro h
    have hdet : detect_language_from_query s =
        (if hindi_translit_keywords.any (fun k => (pySplit (pyLower s)).contains k)
         then "hindi" else "english") := by
      simp [detect_language_from_query, hdev, h]
    have hcomm := any_contains_comm hindi_translit_keywords (pySplit (pyLower s))
    constructor
    · constructor
      · intro hdet2
        by_contra hk
        rw [Bool.not_eq_true] at hk
        have hkf : hindi_translit_keywords.any
            (fun k => (pySplit (pyLower s)).contains k) = false := by
          rw [hcomm]
          exact hk
        rw [hdet, hkf] at hdet2
        simp at hdet2
      · intro hk
        have hkt : hindi_translit_keywords.any
            (fun k => (pySplit (pyLower s)).contains k) = true := by
          rw [hcomm]
          exact hk
        rw [hdet, hkt]
        simp
    · intro hk
      have hkf : hindi_translit_keywords.any
          (fun k => (pySplit (pyLower s)).contains k) = false := by
        rw [hcomm]
        exact hk
      rw [hdet, hkf]
      simp

/-- C5 witness: a Devanagari utterance, a transliterated keyword utterance
and a plain-English utterance, each classified as the theorem predicts. -/
theorem C5_language_detector_witness :
    detect_language_from_query "बचत" = "hindi"
      ∧ detect_language_from_query "namaste kya" = "hindi"
      ∧ detect_language_from_query "ok computer" = "english" :=
  ⟨(C5_language_detector "बचत").1 (by decide),
   ((C5_language_detector "namaste kya").2 (by decide)).1.mpr (by decide),
   ((C5_language_detector "ok computer").2 (by decide)).2 (by decide)⟩

theorem pickRemove_perm : ∀ (l : List Doc) (k : Nat) (a : Doc) (r : List Doc),
    pickRemove k l = some (a, r) → l.Perm (a :: r) := by
  intro l
  induction l with
  | nil =>
    intro k a r h
    simp [pickRemove] at h
  | cons x xs ih =>
    intro k a r h
    cases k with
    | zero =>
      simp only [pickRemove, Option.some.injEq, Prod.mk.injEq] at h
      rw [← h.1, ← h.2]
    | succ k =>
      cases hx : pickRemove k xs with
      | none =>
        simp [pickRemove, hx] at h
      | some p =>
        obtain ⟨b, r2⟩ := p
        simp only [pickRemove, hx, Option.map_some', Option.some.injEq, Prod.mk.injEq] at h
        obtain ⟨hb, hr⟩ := h
        subst hb
        subst hr
        exact ((ih k b r2 hx).cons x).trans (List.Perm.swap b x r2)

theorem pickRemove_some_of_lt : ∀ (l : List Doc) (k : Nat), k < l.length →
    ∃ a r, pickRemove k l = some (a, r) := by
  intro l
  induction l with
  | nil =>
    intro k h
    exact absurd h (Nat.not_lt_zero k)
  | cons x xs ih =>
    intro k h
    cases k with
    | zero => exact ⟨x, xs, rfl⟩
    | succ k =>
      obtain ⟨a, r, hr⟩ := ih k (by simpa using h)
      exact ⟨a, x :: r, by simp [pickRemove, hr]⟩

theorem pySample_subset : ∀ (n : Nat) (seeds : List Nat) (l : List Doc),
    ∀ d ∈ pySample seeds n l, d ∈ l := by
  intro n
  induction n with
  | zero =>
    intro seeds l d hd
    simp [pySample] at hd
  | succ n ih =>
    intro seeds l d hd
    cases hp : pickRemove (seeds.headD 0 % l.length) l with
    | none =>
      rw [pySample, hp] at hd
      cases hd
    | some p =>
      obtain ⟨a, rest⟩ := p
      rw [pySample, hp] at hd
      have hperm := pickRemove_perm l _ a rest hp
      rcases List.mem_cons.mp hd with h | h
      · subst h
        exact hperm.mem_iff.mpr (List.mem_cons_self _ _)
      · exact hperm.mem_iff.mpr (List.mem_cons_of_mem a (ih seeds.tail rest d h))

theorem pySample_length : ∀ (n : Nat) (seeds : List Nat) (l : List Doc), n ≤ l.length →
    (pySample seeds n l).length = n := by
  intro n
  induction n with
  | zero =>
    intro seeds l _
    simp [pySample]
  | succ n ih =>
    intro seeds l h
    have hpos : 0 < l.length := by omega
    obtain ⟨a, r, hr⟩ := pickRemove_some_of_lt l _ (Nat.mod_lt _ hpos)
    have hlenr : l.length = r.length + 1 := by
      simpa using (pickRemove_perm l _ a r hr).length_eq
    rw [pySample, hr]
    simp [ih seeds.tail r (by omega)]

theorem pySample_nodup : ∀ (n : Nat) (seeds : List Nat) (l : List Doc), l.Nodup →
    (pySample seeds n l).Nodup := by
  intro n
  induction n with
  | zero =>
    intro seeds l _
    simp [pySample]
  | succ n ih =>
    intro seeds l hnd
    cases hp : pickRemove (seeds.headD 0 % l.length) l with
    | none =>
      rw [pySample, hp]
      exact List.nodup_nil
    | some p =>
      obtain ⟨a, r⟩ := p
      rw [pySample, hp]
      have hnd2 := List.nodup_cons.mp ((pickRemove_perm l _ a r hp).nodup hnd)
      exact List.nodup_cons.mpr
        ⟨fun hmem => hnd2.1 (pySample_subset n seeds.tail r a hmem), ih seeds.tail r hnd2.2⟩

/-- C6: on "give me 3 saving tips" the dispatcher resolves count 3 and
returns the multi-tip listing built from `min 3 total` distinct saving-tip
documents sampled without replacement (exactly 3 of them whenever the store
holds at least 3 saving tips), rendered in sampling order with 1-based
numbering by `renderTipList`. -/
theorem C6_three_saving_tips (store : List Doc) (seeds : Seeds) (gemini : GeminiResult)
    (hnd : (store.filter (fun d => d.doc_type == "Saving Tip")).Nodup)
    (hlen : 3 ≤ (store.filter (fun d => d.doc_type == "Saving Tip")).length) :
    resolveTipCount (pyStripWs (pyLower "give me 3 saving tips")) = 3
    ∧ get_chatbot_response seeds gemini store "give me 3 saving tips"
        = search_multiple_tips seeds.sampleSeeds 3 "english" store
    ∧ search_multiple_tips seeds.sampleSeeds 3 "english" store
        = renderTipList "english" 3
            (pySample seeds.sampleSeeds 3 (store.filter (fun d => d.doc_type == "Saving Tip")))
    ∧ (pySample seeds.sampleSeeds 3 (store.filter (fun d => d.doc_type == "Saving Tip"))).length = 3
    ∧ (pySample seeds.sampleSeeds 3 (store.filter (fun d => d.doc_type == "Saving Tip"))).Nodup
    ∧ ∀ d ∈ pySample seeds.sampleSeeds 3 (store.filter (fun d => d.doc_type == "Saving Tip")),
        d ∈ store.filter (fun d => d.doc_type == "Saving Tip") := by
  refine ⟨by decide, ?_, ?_, ?_, ?_, ?_⟩
  · rfl
  · simp only [search_multiple_tips]
    rw [Nat.min_eq_left hlen]
  · exact pySample_length 3 seeds.sampleSeeds _ hlen
  · exact pySample_nodup 3 seeds.sampleSeeds _ hnd
  · exact pySample_subset 3 seeds.sampleSeeds _

/-- C6 witness: the three-tip fixture store yields a 3-element sample. -/
theorem C6_three_saving_tips_witness :
    (pySample (Seeds.mk 0 0 0 [0, 0, 0]).sampleSeeds 3
        (exTipStore.filter (fun d => d.doc_type == "Saving Tip"))).length = 3 :=
  (C6_three_saving_tips exTipStore ⟨0, 0, 0, [0, 0, 0]⟩ (GeminiResult.ok "")
    (by decide) (by decide)).2.2.2.1
theorem dispatch_local_def (seeds : Seeds) (gemini : GeminiResult) (store : List Doc)
    (uq : String) (doc : Doc)
    (h1 : explicit_lang_of (pyStripWs (pyLower uq)) = none)
    (h2 : isGreetingQuery (pyStripWs (pyLower uq)) = false)
    (h3 : isVagueQuery (pyStripWs (pyLower uq)) uq = false)
    (h4 : (isTipQuery (pyStripWs (pyLower uq))
            && decide (1 < resolveTipCount (pyStripWs (pyLower uq)))) = false)
    (h5 : search_custom_data seeds.tieSeed store uq = some doc)
    (h6 : doc.doc_type = "Definition")
    (h7 : doc.search_key ≠ uq) :
    get_chatbot_response seeds gemini store uq =
      defResponseParts (detect_language_from_query uq) doc.search_key
        (getContent doc (detect_language_from_query uq))
        (retrieve_related_info seeds.tipSeed "Saving Tip" (detect_language_from_query uq) store)
        (retrieve_related_info seeds.scamSeed "Scam Alert" (detect_language_from_query uq) store) := by
  have h7b : (doc.search_key == uq) = false := beq_eq_false_iff_ne.mpr h7
  have h6b : (doc.doc_type == "Definition") = true := by rw [h6]; exact beq_self_eq_true _
  simp only [get_chatbot_response, h1, h2, h3, h4, h5, h6b, h7b, Option.isNone_some,
    Bool.false_and, Bool.false_eq_true, if_false, Bool.and_false]
  simp

theorem dispatch_fallback (seeds : Seeds) (gemini : GeminiResult) (store : List Doc)
    (uq : String)
    (h1 : explicit_lang_of (pyStripWs (pyLower uq)) = none)
    (h2 : isGreetingQuery (pyStripWs (pyLower uq)) = false)
    (h3 : isVagueQuery (pyStripWs (pyLower uq)) uq = false)
    (h4 : (isTipQuery (pyStripWs (pyLower uq))
            && decide (1 < resolveTipCount (pyStripWs (pyLower uq)))) = false)
    (h5 : search_custom_data seeds.tieSeed store uq = none)
    (h6 : is_query_financial uq = true) :
    get_chatbot_response seeds gemini store uq =
      defResponseParts (detect_language_from_query uq)
        (if detect_language_from_query uq == "hindi" then uq else pyTitle uq)
        (call_gemini_api_fallback gemini uq (detect_language_from_query uq))
        (retrieve_related_info seeds.tipSeed "Saving Tip" (detect_language_from_query uq) store)
        (retrieve_related_info seeds.scamSeed "Scam Alert" (detect_language_from_query uq) store) := by
  simp only [get_chatbot_response, h1, h2, h3, h4, h5, h6, Option.isNone_none,
    Bool.true_and, Bool.false_eq_true, if_false, if_true]
  simp

theorem dispatch_local_def_eqkey (seeds : Seeds) (gemini : GeminiResult) (store : List Doc)
    (uq : String) (doc : Doc)
    (h1 : explicit_lang_of (pyStripWs (pyLower uq)) = none)
    (h2 : isGreetingQuery (pyStripWs (pyLower uq)) = false)
    (h3 : isVagueQuery (pyStripWs (pyLower uq)) uq = false)
    (h4 : (isTipQuery (pyStripWs (pyLower uq))
            && decide (1 < resolveTipCount (pyStripWs (pyLower uq)))) = false)
    (h5 : search_custom_data seeds.tieSeed store uq = some doc)
    (h6 : doc.doc_type = "Definition")
    (h7 : doc.search_key = uq) :
    get_chatbot_response seeds gemini store uq =
      defResponseParts (detect_language_from_query uq)
        (if detect_language_from_query uq == "hindi" then uq else pyTitle uq)
        doc.content
        (retrieve_related_info seeds.tipSeed "Saving Tip" (detect_language_from_query uq) store)
        (retrieve_related_info seeds.scamSeed "Scam Alert" (detect_language_from_query uq) store) := by
  have h7b : (doc.search_key == uq) = true := by rw [h7]; exact beq_self_eq_true _
  have h6b : (doc.doc_type == "Definition") = true := by rw [h6]; exact beq_self_eq_true _
  simp only [get_chatbot_response, h1, h2, h3, h4, h5, h6b, h7b, Option.isNone_some,
    Bool.false_and, Bool.false_eq_true, if_false, if_true, Bool.and_false]

theorem pyJoin_cons_exists (sep a : String) (l : List String) :
    ∃ rest : String, pyJoin sep (a :: l) = a ++ rest := by
  cases l with
  | nil => exact ⟨"", (String.append_empty a).symm⟩
  | cons b t =>
    exact ⟨sep ++ pyJoin sep (b :: t), by
      rw [show pyJoin sep (a :: b :: t) = a ++ sep ++ pyJoin sep (b :: t) from rfl,
        String.append_assoc]⟩

theorem defResponseParts_shape (lang title body : String) (tip scam : Option RelInfo) :
    ∃ rest : String, defResponseParts lang title body tip scam =
      hdrExplained lang ++ "\n**" ++ title ++ "**:\n" ++ body ++ rest := by
  have h : ∃ tail : List String, defResponseParts lang title body tip scam
      = pyJoin "\n" ((hdrExplained lang ++ "\n**" ++ title ++ "**:\n" ++ body) :: tail) := by
    cases tip <;> cases scam <;> exact ⟨_, rfl⟩
  obtain ⟨tail, htail⟩ := h
  rw [htail]
  exact pyJoin_cons_exists "\n" _ tail

theorem strContains_of_data (hay needle : String)
    (h : ∃ pre post : List Char, hay.data = pre ++ (needle.data ++ post)) :
    strContains hay needle = true := by
  obtain ⟨pre, post, hh⟩ := h
  unfold strContains
  rw [hh]
  exact subListAux_append_mid pre needle.data post

theorem ne_empty_of_strContains (resp x : String) (hx : x.data ≠ [])
    (h : strContains resp x = true) : resp ≠ "" := by
  intro he
  rw [he] at h
  have h2 : x.data.isEmpty = true := h
  rw [List.isEmpty_iff] at h2
  exact hx h2

/-- C7: when the dispatcher reaches the fallback (finance-relevant utterance,
no local match) and the generative call fails, the reply is non-empty and the
error description is visible inside it — the failure is substituted as reply
content, never propagated. -/
theorem C7_fallback_error_reply (seeds : Seeds) (gemini : GeminiResult) (store : List Doc)
    (uq e : String)
    (h1 : explicit_lang_of (pyStripWs (pyLower uq)) = none)
    (h2 : isGreetingQuery (pyStripWs (pyLower uq)) = false)
    (h3 : isVagueQuery (pyStripWs (pyLower uq)) uq = false)
    (h4 : (isTipQuery (pyStripWs (pyLower uq))
            && decide (1 < resolveTipCount (pyStripWs (pyLower uq)))) = false)
    (h5 : search_custom_data seeds.tieSeed store uq = none)
    (h6 : is_query_financial uq = true)
    (hg : gemini = GeminiResult.apiError e ∨ gemini = GeminiResult.unknownError e) :
    strContains (get_chatbot_response seeds gemini store uq) ("error occurred: " ++ e) = true
    ∧ get_chatbot_response seeds gemini store uq ≠ "" := by
  have hdisp := dispatch_fallback seeds gemini store uq h1 h2 h3 h4 h5 h6
  have hbody : ∃ p : String,
      call_gemini_api_fallback gemini uq (detect_language_from_query uq)
        = p ++ ("error occurred: " ++ e) := by
    rcases hg with h | h <;> subst h
    · refine ⟨"A Gemini API ", ?_⟩
      show "A Gemini API error occurred: " ++ e = "A Gemini API " ++ ("error occurred: " ++ e)
      rw [← String.append_assoc]
      exact congrArg (fun s => s ++ e) (by decide)
    · refine ⟨"An unknown ", ?_⟩
      show "An unknown error occurred: " ++ e = "An unknown " ++ ("error occurred: " ++ e)
      rw [← String.append_assoc]
      exact congrArg (fun s => s ++ e) (by decide)
  obtain ⟨p, hp⟩ := hbody
  obtain ⟨rest, hrest⟩ := defResponseParts_shape (detect_language_from_query uq)
    (if detect_language_from_query uq == "hindi" then uq else pyTitle uq)
    (call_gemini_api_fallback gemini uq (detect_language_from_query uq))
    (retrieve_related_info seeds.tipSeed "Saving Tip" (detect_language_from_query uq) store)
    (retrieve_related_info seeds.scamSeed "Scam Alert" (detect_language_from_query uq) store)
  have hc : strContains (get_chatbot_response seeds gemini store uq)
      ("error occurred: " ++ e) = true := by
    apply strContains_of_data
    refine ⟨(hdrExplained (detect_language_from_query uq)).data ++ ("\n**").data
      ++ (if detect_language_from_query uq == "hindi" then uq else pyTitle uq).data
      ++ ("**:\n").data ++ p.data, rest.data, ?_⟩
    rw [hdisp, hrest, hp]
    simp [String.data_append, List.append_assoc]
  have hxne : ("error occurred: " ++ e).data ≠ [] := by
    rw [String.data_append]
    intro hh
    rcases List.append_eq_nil.mp hh with ⟨hA, _⟩
    exact absurd hA (by decide)
  exact ⟨hc, ne_empty_of_strContains _ _ hxne hc⟩

/-- C7 witness: empty store, finance-relevant utterance, failing backend. -/
theorem C7_fallback_error_reply_witness :
    strContains (get_chatbot_response seeds0 (GeminiResult.apiError "boom") []
        "what is xyzqq crypto") ("error occurred: " ++ "boom") = true
    ∧ get_chatbot_response seeds0 (GeminiResult.apiError "boom") [] "what is xyzqq crypto" ≠ "" :=
  C7_fallback_error_reply seeds0 (GeminiResult.apiError "boom") [] "what is xyzqq crypto" "boom"
    (by decide) (by decide) (by decide) (by decide) (by decide) (by decide) (Or.inl rfl)

/-- C2 counterexample: the utterance "SIP" is answered from local retrieval
(`search_custom_data` returns the store's own document), yet the composed
bolded title is the title-cased utterance "Sip", not the document's
`search_key` "SIP" — the composer distinguishes fallback from retrieval by
`search_key == user_question`, which misfires when a stored key equals the
raw utterance. -/
theorem C2_local_title_counterexample :
    search_custom_data 0 exStore "SIP" = some exSipDoc
    ∧ exSipDoc.doc_type = "Definition"
    ∧ get_chatbot_response seeds0 (GeminiResult.ok "") exStore "SIP" =
        "**📚 Financial Term Explained:**\n**Sip**:\nA plan to invest fixed amounts regularly."
    ∧ strContains (get_chatbot_response seeds0 (GeminiResult.ok "") exStore "SIP")
        ("**" ++ exSipDoc.search_key ++ "**") = false :=
  ⟨by decide, rfl, by decide, by decide⟩

/-- C2 amended: a Definition match from local retrieval is titled with the
document's own `search_key` and bodied with the locale-selected stored
content PROVIDED its `search_key` differs from the raw utterance (first
conjunct); whenever the match's `search_key` equals the utterance — every
fallback match (second conjunct), and also a locally retrieved document
whose key coincides with the utterance (third conjunct) — the title is the
utterance (title-cased in the English locale, unmodified in Hindi) and the
body is the `content` field as-is. -/
theorem C2_composer_title_amended (seeds : Seeds) (gemini : GeminiResult) (store : List Doc)
    (uq : String) (doc : Doc)
    (h1 : explicit_lang_of (pyStripWs (pyLower uq)) = none)
    (h2 : isGreetingQuery (pyStripWs (pyLower uq)) = false)
    (h3 : isVagueQuery (pyStripWs (pyLower uq)) uq = false)
    (h4 : (isTipQuery (pyStripWs (pyLower uq))
            && decide (1 < resolveTipCount (pyStripWs (pyLower uq)))) = false) :
    (search_custom_data seeds.tieSeed store uq = some doc → doc.doc_type = "Definition" →
      doc.search_key ≠ uq →
      get_chatbot_response seeds gemini store uq =
        defResponseParts (detect_language_from_query uq) doc.search_key
          (getContent doc (detect_language_from_query uq))
          (retrieve_related_info seeds.tipSeed "Saving Tip" (detect_language_from_query uq) store)
          (retrieve_related_info seeds.scamSeed "Scam Alert" (detect_language_from_query uq) store))
    ∧ (search_custom_data seeds.tieSeed store uq = none → is_query_financial uq = true →
      get_chatbot_response seeds gemini store uq =
        defResponseParts (detect_language_from_query uq)
          (if detect_language_from_query uq == "hindi" then uq else pyTitle uq)
          (call_gemini_api_fallback gemini uq (detect_language_from_query uq))
          (retrieve_related_info seeds.tipSeed "Saving Tip" (detect_language_from_query uq) store)
          (retrieve_related_info seeds.scamSeed "Scam Alert" (detect_language_from_query uq) store))
    ∧ (search_custom_data seeds.tieSeed store uq = some doc → doc.doc_type = "Definition" →
      doc.search_key = uq →
      get_chatbot_response seeds gemini store uq =
        defResponseParts (detect_language_from_query uq)
          (if detect_language_from_query uq == "hindi" then uq else pyTitle uq)
          doc.content
          (retrieve_related_info seeds.tipSeed "Saving Tip" (detect_language_from_query uq) store)
          (retrieve_related_info seeds.scamSeed "Scam Alert" (detect_language_from_query uq) store)) :=
  ⟨fun h5 h6 h7 => dispatch_local_def seeds gemini store uq doc h1 h2 h3 h4 h5 h6 h7,
   fun h5 h6 => dispatch_fallback seeds gemini store uq h1 h2 h3 h4 h5 h6,
   fun h5 h6 h7 => dispatch_local_def_eqkey seeds gemini store uq doc h1 h2 h3 h4 h5 h6 h7⟩

/-- C2 witness: the amended clauses applied concretely — the distinct-key
local match "what is sip?", the English-locale local match "SIP" whose key
equals the utterance, and the Hindi-locale local match "बचत" whose key
equals the utterance. -/
theorem C2_composer_title_amended_witness :
    (get_chatbot_response seeds0 (GeminiResult.ok "") exStore "what is sip?" =
      defResponseParts (detect_language_from_query "what is sip?") exSipDoc.search_key
        (getContent exSipDoc (detect_language_from_query "what is sip?"))
        (retrieve_related_info seeds0.tipSeed "Saving Tip"
          (detect_language_from_query "what is sip?") exStore)
        (retrieve_related_info seeds0.scamSeed "Scam Alert"
          (detect_language_from_query "what is sip?") exStore))
    ∧ (get_chatbot_response seeds0 (GeminiResult.ok "") exStore "SIP" =
      defResponseParts (detect_language_from_query "SIP")
        (if detect_language_from_query "SIP" == "hindi" then "SIP" else pyTitle "SIP")
        exSipDoc.content
        (retrieve_related_info seeds0.tipSeed "Saving Tip"
          (detect_language_from_query "SIP") exStore)
        (retrieve_related_info seeds0.scamSeed "Scam Alert"
          (detect_language_from_query "SIP") exStore))
    ∧ (get_chatbot_response seeds0 (GeminiResult.ok "") exHindiStore "बचत" =
      defResponseParts (detect_language_from_query "बचत")
        (if detect_language_from_query "बचत" == "hindi" then "बचत" else pyTitle "बचत")
        exHindiDoc.content
        (retrieve_related_info seeds0.tipSeed "Saving Tip"
          (detect_language_from_query "बचत") exHindiStore)
        (retrieve_related_info seeds0.scamSeed "Scam Alert"
          (detect_language_from_query "बचत") exHindiStore)) :=
  ⟨(C2_composer_title_amended seeds0 (GeminiResult.ok "") exStore "what is sip?" exSipDoc
      (by decide) (by decide) (by decide) (by decide)).1 (by decide) rfl (by decide),
   (C2_composer_title_amended seeds0 (GeminiResult.ok "") exStore "SIP" exSipDoc
      (by decide) (by decide) (by decide) (by decide)).2.2 (by decide) rfl rfl,
   (C2_composer_title_amended seeds0 (GeminiResult.ok "") exHindiStore "बचत" exHindiDoc
      (by decide) (by decide) (by decide) (by decide)).2.2 (by decide) rfl rfl⟩

/-- C9: handling a request leaves the document store unchanged — the store
threaded through the state-passing dispatcher, and through every retrieval
operation it invokes, comes back exactly as it went in, while the reply
agrees with the pure dispatcher; only the one-time
`load_and_index_data` extends the store. -/
theorem C9_request_frame (seeds : Seeds) (gemini : GeminiResult) (store : List Doc)
    (user_question : String) (seed : Nat) (dt lang2 : String) (count : Nat) (ss : List Nat) :
    (get_chatbot_response_state seeds gemini store user_question).2 = store
    ∧ (get_chatbot_response_state seeds gemini store user_question).1
        = get_chatbot_response seeds gemini store user_question
    ∧ (search_custom_data_state seed store user_question).2 = store
    ∧ (retrieve_related_info_state seed dt lang2 store).2 = store
    ∧ (search_multiple_tips_state ss count lang2 store).2 = store := by
  refine ⟨?_, ?_, rfl, rfl, rfl⟩
  · simp only [get_chatbot_response_state, search_custom_data_state,
      retrieve_related_info_state, search_multiple_tips_state]
    repeat' split <;> try rfl
  · simp only [get_chatbot_response_state, get_chatbot_response, search_custom_data_state,
      retrieve_related_info_state, search_multiple_tips_state]
    repeat' split <;> try rfl
